import Mathlib

/-!
Verification development for the whale-watch multi-chain monitoring backend.

The definitions below are shallow embeddings of the TypeScript source:
  * src/backend/src/common/utils/ethereum.util.ts      (EthereumUtil)
  * src/backend/src/modules/whale/whale.service.ts     (two WhaleService variants)
  * src/unnamed/part_002                               (SolanaService)
  * src/unnamed/part_005                               (WhaleMagnetService)

Numbers flowing through the pipeline are modelled as exact rationals
(JavaScript numbers / bigints), fallible external library calls as
`Except Unit` valued oracles, JavaScript `parseFloat` as an
`Option Rat` valued oracle (`none` encodes NaN), and the per-service
mutable maps as association lists with JS `Map` set/get semantics.
-/

/-- Base-unit conversion used by `ethers.formatEther`: 10^18 wei per ETH. -/
def weiPerEth : ℚ := 10 ^ 18

/-- Base-unit conversion used by the Solana block processor:
`LAMPORTS_PER_SOL` = 10^9. -/
def lamportsPerSol : ℚ := 10 ^ 9

/-- JS `Map.get`, on an association list (insertion order preserved). -/
def mapGet {β : Type} (m : List (String × β)) (k : String) : Option β :=
  match m with
  | [] => none
  | (k2, v) :: rest => if k2 = k then some v else mapGet rest k

/-- JS `Map.set`, on an association list: overwrite in place if the key is
present, otherwise add a new entry. -/
def mapSet {β : Type} (m : List (String × β)) (k : String) (v : β) :
    List (String × β) :=
  if m.any (fun p => p.1 = k) then
    m.map (fun p => if p.1 = k then (k, v) else p)
  else
    (k, v) :: m

/-- Number of entries stored under key `k`. -/
def countKey {β : Type} (m : List (String × β)) (k : String) : ℕ :=
  (m.filter (fun p => p.1 = k)).length

namespace EthereumUtil

/-- `EthereumUtil.formatEther` (ethereum.util.ts lines 4-10): wraps
`ethers.formatEther` in try/catch, returning "0" when the library throws.
The library is modelled as an oracle `String → Except Unit String`. -/
def formatEther (ethersFormatEther : String → Except Unit String)
    (wei : String) : String :=
  match ethersFormatEther wei with
  | Except.ok s => s
  | Except.error _ => "0"

/-- `EthereumUtil.parseEther` (lines 12-18): `ethers.parseEther(x).toString()`
inside try/catch with fallback "0"; the library returns a bigint, modelled
as `ℤ`. -/
def parseEther (ethersParseEther : String → Except Unit ℤ)
    (ether : String) : String :=
  match ethersParseEther ether with
  | Except.ok n => toString n
  | Except.error _ => "0"

/-- `EthereumUtil.formatUnits` (lines 20-26). -/
def formatUnits (ethersFormatUnits : String → ℕ → Except Unit String)
    (value : String) (decimals : ℕ) : String :=
  match ethersFormatUnits value decimals with
  | Except.ok s => s
  | Except.error _ => "0"

/-- `EthereumUtil.parseUnits` (lines 28-34). -/
def parseUnits (ethersParseUnits : String → ℕ → Except Unit ℤ)
    (value : String) (decimals : ℕ) : String :=
  match ethersParseUnits value decimals with
  | Except.ok n => toString n
  | Except.error _ => "0"

/-- `EthereumUtil.isValidAddress` (lines 36-42): `ethers.isAddress` in
try/catch with fallback `false`. -/
def isValidAddress (ethersIsAddress : String → Except Unit Bool)
    (address : String) : Bool :=
  match ethersIsAddress address with
  | Except.ok b => b
  | Except.error _ => false

/-- `EthereumUtil.checksumAddress` (lines 44-50): `ethers.getAddress` in
try/catch, returning the input unchanged when the library throws. -/
def checksumAddress (ethersGetAddress : String → Except Unit String)
    (address : String) : String :=
  match ethersGetAddress address with
  | Except.ok s => s
  | Except.error _ => address

/-- `EthereumUtil.formatGwei` (lines 52-58). -/
def formatGwei (ethersFormatUnitsGwei : String → Except Unit String)
    (wei : String) : String :=
  match ethersFormatUnitsGwei wei with
  | Except.ok s => s
  | Except.error _ => "0"

/-- `EthereumUtil.isWhaleTransaction` (lines 60-67):
`parseFloat(valueEth) >= minThreshold`. JS `parseFloat` never throws; it
returns NaN on non-numeric input, and every comparison with NaN is false.
`jsParseFloat` returns `none` for NaN. -/
def isWhaleTransaction (jsParseFloat : String → Option ℚ)
    (valueEth : String) (minThreshold : ℚ) : Bool :=
  match jsParseFloat valueEth with
  | some v => decide (v ≥ minThreshold)
  | none => false

end EthereumUtil

namespace WhaleServiceV1

/-- `isWhaleTransaction` of the first WhaleService variant
(whale.service.ts lines 80-85): `if (!tx.value) return false` (so a missing
or zero value never qualifies), then `formatEther` followed by
`EthereumUtil.isWhaleTransaction`, i.e. wei / 10^18 ≥ minTransactionValue.
`value` is the transaction's wei amount; `none` models a missing field. -/
def isWhaleTransaction (minTransactionValue : ℚ) (value : Option ℚ) : Bool :=
  match value with
  | none => false
  | some v =>
    if v = 0 then false
    else decide (v / weiPerEth ≥ minTransactionValue)

end WhaleServiceV1

namespace WhaleServiceV2

/-- `isWhaleTransaction` of the second WhaleService variant
(whale.service.ts lines 591-598): `if (!tx.value) return false`, then
`floatValue >= this.minTransactionValue && floatValue <= 100` — this
variant additionally imposes a fixed upper bound of 100 ETH. -/
def isWhaleTransaction (minTransactionValue : ℚ) (value : Option ℚ) : Bool :=
  match value with
  | none => false
  | some v =>
    if v = 0 then false
    else
      let floatValue := v / weiPerEth
      decide (floatValue ≥ minTransactionValue) && decide (floatValue ≤ 100)

/-- `addTransaction` (whale.service.ts lines 723-733, same shape at
168-175): `unshift` the new record, then trim the list to
`maxTrackedTransactions` with `slice(0, max)` when it overflows. The
mock-transaction side effect at lines 730-732 schedules an independent
future insertion and does not touch the list here. -/
def addTransaction {α : Type} (maxTrackedTransactions : ℕ)
    (recentTransactions : List α) (transaction : α) : List α :=
  let recent1 := transaction :: recentTransactions
  if recent1.length > maxTrackedTransactions then
    recent1.take maxTrackedTransactions
  else recent1

/-- `maxErrors` (whale.service.ts line 463). -/
def maxErrors : ℕ := 10

/-- The circuit-breaker cooldown (whale.service.ts line 720): 5 minutes. -/
def circuitBreakerCooldownMs : ℕ := 5 * 60 * 1000

/-- The circuit-breaker fields of the service (whale.service.ts lines
462-464). -/
structure BreakerState where
  errorCount : ℕ
  circuitBreakerOpen : Bool
deriving DecidableEq

/-- Outcome of one `processBlock` attempt: success, or a thrown error whose
`code` may or may not be the string BAD_DATA. -/
inductive BlockOutcome where
  | success
  | failure (badData : Bool)
deriving DecidableEq

/-- `processBlockWithCircuitBreaker` (whale.service.ts lines 694-721).
When the breaker is open the block is skipped outright (no `processBlock`
call, hence no RPC). Otherwise `processBlock` runs: on success the error
counter resets to 0; on any thrown error the counter is incremented, and
`openCircuitBreaker` fires when the error code is BAD_DATA and the counter
has reached `maxErrors`. The returned Bool records whether `processBlock`
was invoked. -/
def processBlockWithCircuitBreaker (st : BreakerState)
    (outcome : BlockOutcome) : BreakerState × Bool :=
  if st.circuitBreakerOpen then (st, false)
  else
    match outcome with
    | .success => ({ st with errorCount := 0 }, true)
    | .failure badData =>
      let st1 := { st with errorCount := st.errorCount + 1 }
      if badData ∧ st1.errorCount ≥ maxErrors then
        ({ st1 with circuitBreakerOpen := true }, true)
      else (st1, true)

/-- The `setTimeout` callback installed by `openCircuitBreaker`
(whale.service.ts lines 716-720), firing `circuitBreakerCooldownMs` after
the breaker opened: close the breaker and reset the counter. -/
def circuitBreakerCooldownElapsed (_st : BreakerState) : BreakerState :=
  { errorCount := 0, circuitBreakerOpen := false }

end WhaleServiceV2

namespace SolanaService

/-- `WHALE_THRESHOLD_SOL` (part_002 line 122). -/
def WHALE_THRESHOLD_SOL : ℚ := 50

/-- The SOL system-transfer whale check inside `processBlock`
(part_002 lines 265-268): `transferAmount / LAMPORTS_PER_SOL >=
WHALE_THRESHOLD_SOL`, where `transferAmount` is the parsed instruction's
lamports. -/
def isWhaleSystemTransfer (lamports : ℚ) : Bool :=
  decide (lamports / lamportsPerSol ≥ WHALE_THRESHOLD_SOL)

/-- One entry of the `whaleMonitor` map (part_002 lines 123-129); the
`monitoringTimeout` timer handle is represented by the fixed expiry window
being determined by `startTime`. -/
structure MonitorEntry where
  initialTokens : List String
  amountSol : ℚ
  transactionHash : String
  startTime : ℕ
deriving DecidableEq

/-- One entry of the `whaleAddresses` tracking map (part_002 lines 134-140). -/
structure WhaleAddrInfo where
  address : String
  balance : ℚ
  lastSeen : ℕ
  tokenCount : ℕ
  totalValue : ℚ
deriving DecidableEq

/-- The SolanaService mutable state relevant to whale-address monitoring. -/
structure MonitorState where
  whaleMonitor : List (String × MonitorEntry)
  whaleAddresses : List (String × WhaleAddrInfo)
deriving DecidableEq

/-- `monitorWhaleAddress` (part_002 lines 324-387). Returns immediately when
the address is already in `whaleMonitor`; otherwise snapshots the current
token holdings (`initialTokens`, the awaited `getTokensByOwner` result),
records tracking metadata in `whaleAddresses`, and stores the monitor
entry. Timers are scheduled externally; the stored record is what the
claims are about. -/
def monitorWhaleAddress (st : MonitorState) (address : String)
    (amountSol : ℚ) (transactionHash : String) (now : ℕ)
    (initialTokens : List String) : MonitorState :=
  if (mapGet st.whaleMonitor address).isSome then st
  else
    { whaleAddresses :=
        mapSet st.whaleAddresses address
          { address := address
            balance := amountSol
            lastSeen := now
            tokenCount := initialTokens.length
            totalValue := amountSol * 100 }
      whaleMonitor :=
        mapSet st.whaleMonitor address
          { initialTokens := initialTokens
            amountSol := amountSol
            transactionHash := transactionHash
            startTime := now } }

/-- One tick of the polling interval installed by `monitorWhaleAddress`
(part_002 lines 346-372). `initialTokens` is the baseline captured by the
closure at monitor start; `currentTokens` is the freshly fetched holdings.
The tick computes `newTokens = currentTokens.filter(t => !initialTokens.has(t))`
(every token in it is reported: logged and sent to token analysis), then
refreshes `lastSeen`/`tokenCount` in `whaleAddresses`; the baseline itself
is never written. Returns the updated state and the reported new tokens. -/
def monitorPollTick (initialTokens : List String) (st : MonitorState)
    (address : String) (currentTokens : List String) (now : ℕ) :
    MonitorState × List String :=
  let newTokens := currentTokens.filter (fun t => ¬ initialTokens.contains t)
  let st1 :=
    match mapGet st.whaleAddresses address with
    | some w =>
      { st with
        whaleAddresses :=
          mapSet st.whaleAddresses address
            { w with lastSeen := now, tokenCount := currentTokens.length } }
    | none => st
  (st1, newTokens)

/-- Risk levels of a `TokenAnalysis` (part_002 line 87). -/
inductive RiskLevel where
  | LOW
  | MEDIUM
  | HIGH
  | EXTREME
deriving DecidableEq

/-- Alert levels of a `WhaleAlert` (part_002 line 100). -/
inductive AlertLevel where
  | LOW
  | MEDIUM
  | HIGH
  | CRITICAL
deriving DecidableEq

/-- `calculateInvestmentScore` (part_002 lines 617-640): weighted sum of a
liquidity score (`min(100, liquidity/100000)`, weight 0.3), a volume score
(`min(100, volume24h/50000)`, weight 0.25), a price-stability score
(`max(0, 100 - 2*|priceChange24h|)`, weight 0.2), the bonding-curve
slippage score (weight 0.15) and the social score (weight 0.1), clamped to
[0,100]. -/
def calculateInvestmentScore (liquidityUsd volumeH24 priceChangeH24
    slippageScore socialScore : ℚ) : ℚ :=
  let liquidityScore := min 100 (liquidityUsd / 100000)
  let volumeScore := min 100 (volumeH24 / 50000)
  let priceChange := |priceChangeH24|
  let stabilityScore := max 0 (100 - priceChange * 2)
  let score := liquidityScore * (3 / 10) + volumeScore * (25 / 100)
    + stabilityScore * (2 / 10) + slippageScore * (15 / 100)
    + socialScore * (1 / 10)
  max 0 (min 100 score)

/-- `determineRiskLevel` (part_002 lines 645-653); `age` is
`(Date.now() - pairCreatedAt) / (1000*60*60*24)` computed at the call. -/
def determineRiskLevel (investmentScore liquidityUsd age : ℚ) : RiskLevel :=
  if investmentScore ≥ 80 ∧ liquidityUsd ≥ 500000 ∧ age ≥ 7 then .LOW
  else if investmentScore ≥ 60 ∧ liquidityUsd ≥ 100000 ∧ age ≥ 3 then .MEDIUM
  else if investmentScore ≥ 40 ∧ liquidityUsd ≥ 10000 then .HIGH
  else .EXTREME

/-- The alert-level assignment inside `generateWhaleAlert`
(part_002 lines 744-749): the variable starts at LOW and is reassigned by
the score bands; the net mapping is HIGH for score ≥ 80, MEDIUM for ≥ 60,
LOW for ≥ 40, CRITICAL otherwise. -/
def determineAlertLevel (investmentScore : ℚ) : AlertLevel :=
  if investmentScore ≥ 80 then .HIGH
  else if investmentScore ≥ 60 then .MEDIUM
  else if investmentScore ≥ 40 then .LOW
  else .CRITICAL

/-- `TOKEN_ANALYSIS_CACHE_DURATION` (part_002 line 142): 10 minutes in ms. -/
def TOKEN_ANALYSIS_CACHE_DURATION : ℕ := 10 * 60 * 1000

/-- A `tokenAnalysisCache` entry: a `TokenAnalysis` with the dynamically
attached `_cachedAt` timestamp (part_002 line 489). Only the fields the
cache logic inspects are modelled. -/
structure CachedAnalysis where
  investmentScore : ℚ
  riskLevel : RiskLevel
  cachedAt : ℕ
deriving DecidableEq

/-- `getTokenAnalysis` (part_002 lines 883-885): a pure cache lookup,
`tokenAnalysisCache.get(tokenAddress) || null` — no TTL check, no network
fetch, and no write to the cache. -/
def getTokenAnalysis (tokenAnalysisCache : List (String × CachedAnalysis))
    (tokenAddress : String) : Option CachedAnalysis :=
  mapGet tokenAnalysisCache tokenAddress

/-- The cache short-circuit at the top of `analyzeToken`
(part_002 lines 470-474): the cached analysis is returned only when
`now - cachedAt < TOKEN_ANALYSIS_CACHE_DURATION`; `none` means the
function falls through to a fresh network fetch. -/
def analyzeTokenCacheCheck (tokenAnalysisCache : List (String × CachedAnalysis))
    (tokenAddress : String) (now : ℕ) : Option CachedAnalysis :=
  match mapGet tokenAnalysisCache tokenAddress with
  | some cached =>
    if now - cached.cachedAt < TOKEN_ANALYSIS_CACHE_DURATION then some cached
    else none
  | none => none

end SolanaService

/-- JS `Math.round`: round half toward positive infinity. -/
def jsRound (q : ℚ) : ℤ := ⌊q + 1 / 2⌋

namespace WhaleMagnetService

/-- `LIQUIDITY_THRESHOLD_USD` (part_005 line 416). -/
def LIQUIDITY_THRESHOLD_USD : ℚ := 5000

/-- `BUYS_THRESHOLD_H1` (part_005 line 417). -/
def BUYS_THRESHOLD_H1 : ℚ := 15

/-- `HONEYPOT_RISK_RATIO` in the source (part_005 line 420). -/
def honeypotRiskThreshold : ℚ := 50

/-- `MAX_AGE_HOURS` (part_005 line 421). -/
def MAX_AGE_HOURS : ℚ := 2

/-- `NEW_LAUNCH_THRESHOLD_MINUTES` (part_005 line 422). -/
def NEW_LAUNCH_THRESHOLD_MINUTES : ℚ := 120

/-- `TARGET_QUOTE_SYMBOLS` (part_005 line 426). -/
def TARGET_QUOTE_SYMBOLS : List String :=
  ["WETH", "WBNB", "SOL", "USDC", "USDT", "MATIC"]

/-- The fields of a Dexscreener pair (part_005 lines 291-334) read by the
launch tracker. Optional upstream fields are `Option`-valued, matching the
source's `?.`/`|| 0` handling. -/
structure DexPair where
  chainId : String
  baseTokenAddress : String
  baseTokenSymbol : String
  quoteTokenSymbol : String
  url : String
  priceUsd : ℚ
  liquidityUsd : Option ℚ
  txnsH1Buys : Option ℕ
  txnsH1Sells : Option ℕ
  volumeH1 : Option ℚ
  priceChangeM5 : Option ℚ
  priceChangeH24 : Option ℚ
  fdv : ℚ
  marketCap : ℚ
  pairCreatedAt : ℚ
deriving DecidableEq

/-- `calculateRiskScore` (part_005 lines 984-1013): additive risk from the
pair's age tier, liquidity tier, the honeypot flag, an any-buys-no-sells
pattern, and 24h volatility, capped at 100. The `isNewLaunch` parameter is
accepted but unused, as in the source. -/
def calculateRiskScore (pair : DexPair) (_isNewLaunch : Bool)
    (isPotentialHoneypot : Bool) (now : ℚ) : ℚ :=
  let ageMinutes := (now - pair.pairCreatedAt) / 60000
  let ageRisk : ℚ :=
    if ageMinutes < 60 then 30
    else if ageMinutes < 240 then 20
    else if ageMinutes < 1440 then 10
    else 0
  let liquidity := pair.liquidityUsd.getD 0
  let liquidityRisk : ℚ :=
    if liquidity < 5000 then 25
    else if liquidity < 20000 then 15
    else if liquidity < 50000 then 5
    else 0
  let honeypotRisk : ℚ := if isPotentialHoneypot then 40 else 0
  let buys := pair.txnsH1Buys.getD 0
  let sells := pair.txnsH1Sells.getD 0
  let patternRisk : ℚ := if sells = 0 ∧ buys > 10 then 20 else 0
  let volatility := |(pair.priceChangeH24.getD 0)|
  let volatilityRisk : ℚ :=
    if volatility > 100 then 15
    else if volatility > 50 then 10
    else 0
  min (ageRisk + liquidityRisk + honeypotRisk + patternRisk + volatilityRisk)
    100

/-- The fields of a `WhaleMagnetEvent` (part_005 lines 337-362) that the
alert predicates and tracking maps consume. -/
structure WhaleMagnetEvent where
  chainId : String
  tokenAddress : String
  tokenSymbol : String
  pairUrl : String
  pairAgeMinutes : ℤ
  liquidityUsd : ℚ
  recentBuys : ℕ
  recentSells : ℕ
  isPotentialHoneypot : Bool
  volatilityH24 : ℚ
  isWhaleInvested : Bool
  isNewLaunch : Bool
  riskScore : ℚ
  pairCreatedAt : ℚ
deriving DecidableEq

/-- `createWhaleMagnetEvent` (part_005 lines 909-982): derives the event
from the pair snapshot. `pairAgeMinutes` is `Math.round`ed; the buy/sell
ratio is `buys/sells` when sells > 0 and plain `buys` otherwise; a JS
comparison against an absent `volume.h1` is false. -/
def createWhaleMagnetEvent (pair : DexPair) (isNewLaunch : Bool) (now : ℚ) :
    WhaleMagnetEvent :=
  let liquidity := pair.liquidityUsd.getD 0
  let recentBuys := pair.txnsH1Buys.getD 0
  let recentSells := pair.txnsH1Sells.getD 0
  let pairAgeMinutes := (now - pair.pairCreatedAt) / 60000
  let buySellRate : ℚ :=
    if recentSells > 0 then (recentBuys : ℚ) / (recentSells : ℚ)
    else (recentBuys : ℚ)
  let isWhaleInvested :=
    match pair.volumeH1 with
    | some v => decide (v > 5000)
    | none => false
  let isPotentialHoneypot :=
    decide (buySellRate > honeypotRiskThreshold) && decide (recentSells = 0)
  let volatilityH24 := |(pair.priceChangeH24.getD 0)|
  let riskScore := calculateRiskScore pair isNewLaunch
    (isPotentialHoneypot = true) now
  { chainId := pair.chainId
    tokenAddress := pair.baseTokenAddress
    tokenSymbol := pair.baseTokenSymbol
    pairUrl := pair.url
    pairAgeMinutes := jsRound pairAgeMinutes
    liquidityUsd := liquidity
    recentBuys := recentBuys
    recentSells := recentSells
    isPotentialHoneypot := isPotentialHoneypot
    volatilityH24 := volatilityH24
    isWhaleInvested := isWhaleInvested
    isNewLaunch := isNewLaunch
    riskScore := riskScore
    pairCreatedAt := pair.pairCreatedAt }

/-- `shouldAlertNewLaunch` (part_005 lines 652-659). -/
def shouldAlertNewLaunch (e : WhaleMagnetEvent) : Bool :=
  decide (e.liquidityUsd ≥ LIQUIDITY_THRESHOLD_USD * (5 / 10)) &&
  decide ((e.recentBuys : ℚ) ≥ BUYS_THRESHOLD_H1 * (7 / 10)) &&
  decide ((e.pairAgeMinutes : ℚ) ≤ NEW_LAUNCH_THRESHOLD_MINUTES) &&
  decide (e.riskScore ≤ 70)

/-- `shouldAlert` (part_005 lines 1015-1022). -/
def shouldAlert (e : WhaleMagnetEvent) : Bool :=
  decide (e.liquidityUsd ≥ LIQUIDITY_THRESHOLD_USD) &&
  decide ((e.recentBuys : ℚ) ≥ BUYS_THRESHOLD_H1) &&
  decide ((e.pairAgeMinutes : ℚ) ≤ MAX_AGE_HOURS * 60) &&
  decide (e.riskScore ≤ 80)

/-- JS `Set.add` on a list with set semantics. -/
def setAdd (s : List String) (k : String) : List String :=
  if s.contains k then s else k :: s

/-- The tracker's mutable token state (part_005 lines 429-430):
`analyzedTokens` set and `trackedTokens` map. -/
structure TrackerState where
  analyzedTokens : List String
  trackedTokens : List (String × WhaleMagnetEvent)
deriving DecidableEq

/-- `analyzeNewLaunch` (part_005 lines 605-650). Returns the new state and
whether the token was actually analyzed (scored via
`createWhaleMagnetEvent`): the analyzed-set guard and the quote-symbol
filter both return before any scoring. The token key enters
`analyzedTokens` only inside the alert branch. -/
def analyzeNewLaunch (st : TrackerState) (pair : DexPair) (now : ℚ) :
    TrackerState × Bool :=
  let tokenKey := pair.chainId ++ "-" ++ pair.baseTokenAddress
  if st.analyzedTokens.contains tokenKey then (st, false)
  else if ¬ TARGET_QUOTE_SYMBOLS.contains pair.quoteTokenSymbol then
    (st, false)
  else
    let whaleMagnet := createWhaleMagnetEvent pair true now
    if shouldAlertNewLaunch whaleMagnet then
      ({ trackedTokens := mapSet st.trackedTokens tokenKey whaleMagnet
         analyzedTokens := setAdd st.analyzedTokens tokenKey }, true)
    else (st, true)

/-- `analyzeToken` (part_005 lines 855-907). `pairs` stands for the awaited
`fetchTokenPairs` response. Returns the new state and whether the guard was
passed (i.e. pairs were fetched and scored); with the key already in
`analyzedTokens` the function returns immediately. Inside the loop each
target-quote pair young enough is scored, and a qualifying pair stores the
event and adds the key to the analyzed set. -/
def analyzeToken (st : TrackerState) (chainId tokenAddress : String)
    (pairs : List DexPair) (now : ℚ) : TrackerState × Bool :=
  let tokenKey := chainId ++ "-" ++ tokenAddress
  if st.analyzedTokens.contains tokenKey then (st, false)
  else
    (pairs.foldl (fun acc pair =>
      if ¬ TARGET_QUOTE_SYMBOLS.contains pair.quoteTokenSymbol then acc
      else if (now - pair.pairCreatedAt) / 60000 / 60 > MAX_AGE_HOURS then acc
      else
        let whaleMagnet := createWhaleMagnetEvent pair false now
        if shouldAlert whaleMagnet then
          { trackedTokens := mapSet acc.trackedTokens tokenKey whaleMagnet
            analyzedTokens := setAdd acc.analyzedTokens tokenKey }
        else acc) st, true)

end WhaleMagnetService

/-! ### Helper lemmas about the JS `Map`/`Set` model -/

theorem mapGet_none_iff_any {β : Type} (m : List (String × β)) (k : String) :
    mapGet m k = none ↔ m.any (fun p => p.1 = k) = false := by
  induction m with
  | nil => simp [mapGet]
  | cons hd tl ih =>
    obtain ⟨k2, v⟩ := hd
    by_cases hk : k2 = k
    · subst hk; simp [mapGet]
    · simp [mapGet, hk, ih]

theorem mapSet_of_not_mem {β : Type} (m : List (String × β)) (k : String)
    (v : β) (h : mapGet m k = none) : mapSet m k v = (k, v) :: m := by
  unfold mapSet
  rw [(mapGet_none_iff_any m k).mp h]
  simp

theorem countKey_of_mapGet_none {β : Type} (m : List (String × β))
    (k : String) (h : mapGet m k = none) : countKey m k = 0 := by
  induction m with
  | nil => rfl
  | cons hd tl ih =>
    obtain ⟨k2, v⟩ := hd
    by_cases hk : k2 = k
    · subst hk; simp [mapGet] at h
    · unfold mapGet at h
      rw [if_neg hk] at h
      unfold countKey at ih ⊢
      simp [hk, ih h]

/-! ### C1: whale classification thresholds -/

/-- C1 (amended): the first Ethereum whale-service variant and the Solana
system-transfer check classify a transaction as a whale transaction iff its
native value, converted from base units to display units, is at least the
configured minimum threshold (a value exactly at the threshold qualifies,
zero or missing never does); the second Ethereum whale-service variant
additionally requires the converted value to be at most 100 ETH. -/
theorem whale_classifier_threshold_amended (minV v lam : ℚ) :
    WhaleServiceV1.isWhaleTransaction minV none = false ∧
    WhaleServiceV1.isWhaleTransaction minV (some 0) = false ∧
    (WhaleServiceV1.isWhaleTransaction minV (some v) = true ↔
      v ≠ 0 ∧ minV ≤ v / weiPerEth) ∧
    WhaleServiceV2.isWhaleTransaction minV none = false ∧
    WhaleServiceV2.isWhaleTransaction minV (some 0) = false ∧
    (WhaleServiceV2.isWhaleTransaction minV (some v) = true ↔
      v ≠ 0 ∧ minV ≤ v / weiPerEth ∧ v / weiPerEth ≤ 100) ∧
    (SolanaService.isWhaleSystemTransfer lam = true ↔
      SolanaService.WHALE_THRESHOLD_SOL ≤ lam / lamportsPerSol) ∧
    SolanaService.isWhaleSystemTransfer 0 = false := by
  refine ⟨rfl, ?_, ?_, rfl, ?_, ?_, ?_, ?_⟩
  · simp [WhaleServiceV1.isWhaleTransaction]
  · by_cases h : v = 0
    · subst h; simp [WhaleServiceV1.isWhaleTransaction]
    · simp [WhaleServiceV1.isWhaleTransaction, h, ge_iff_le]
  · simp [WhaleServiceV2.isWhaleTransaction]
  · by_cases h : v = 0
    · subst h; simp [WhaleServiceV2.isWhaleTransaction]
    · simp [WhaleServiceV2.isWhaleTransaction, h, ge_iff_le, and_assoc]
  · simp [SolanaService.isWhaleSystemTransfer,
      SolanaService.WHALE_THRESHOLD_SOL, ge_iff_le]
  · norm_num [SolanaService.isWhaleSystemTransfer,
      SolanaService.WHALE_THRESHOLD_SOL, lamportsPerSol]

/-- C1 counterexample: in the second whale-service variant a transaction of
150 ETH (150·10^18 wei) with the configured threshold at 5 ETH has a
converted value strictly above the threshold, yet the classifier returns
false because of the fixed 100 ETH upper bound — refuting "returns true if
and only if the converted value is at least the threshold". -/
theorem whale_classifier_upper_bound_cex :
    WhaleServiceV2.isWhaleTransaction 5 (some (150 * 10 ^ 18)) = false ∧
    (5 : ℚ) ≤ 150 * 10 ^ 18 / weiPerEth := by
  constructor
  · unfold WhaleServiceV2.isWhaleTransaction
    norm_num [weiPerEth]
  · norm_num [weiPerEth]

/-! ### C4: investment-score example scenario -/

/-- C4 (code evaluated at the spec's example): for liquidity $600,000,
24h volume $80,000, 24h price change 2%, slippage score 90 and social
score 70, `calculateInvestmentScore` divides liquidity by 100000 and
volume by 50000 (its own comments say $100k resp. $50k should be worth
100 points), yielding 6·0.3 + 1.6·0.25 + 96·0.2 + 90·0.15 + 70·0.1 = 41.9,
and `determineRiskLevel` at that score classifies the token HIGH
(41.9 ≥ 40 and liquidity ≥ $10k), not LOW as the claim states. -/
theorem investment_score_example_eval :
    SolanaService.calculateInvestmentScore 600000 80000 2 90 70 = 419 / 10 ∧
    SolanaService.determineRiskLevel
      (SolanaService.calculateInvestmentScore 600000 80000 2 90 70) 600000 10 =
      SolanaService.RiskLevel.HIGH := by
  constructor
  · norm_num [SolanaService.calculateInvestmentScore, min_def, max_def]
  · norm_num [SolanaService.calculateInvestmentScore,
      SolanaService.determineRiskLevel, min_def, max_def]

/-! ### C6: whale-alert level mapping -/

/-- C6: `generateWhaleAlert` assigns the alert level HIGH when the
investment score is at least 80, MEDIUM when it is in [60, 80), LOW when it
is in [40, 60), and CRITICAL when it is below 40 — the deliberately
inverted mapping where the lowest investment score yields the highest
alert urgency. -/
theorem alert_level_inverted_mapping (s : ℚ) :
    (SolanaService.determineAlertLevel s = SolanaService.AlertLevel.HIGH ↔
      80 ≤ s) ∧
    (SolanaService.determineAlertLevel s = SolanaService.AlertLevel.MEDIUM ↔
      60 ≤ s ∧ s < 80) ∧
    (SolanaService.determineAlertLevel s = SolanaService.AlertLevel.LOW ↔
      40 ≤ s ∧ s < 60) ∧
    (SolanaService.determineAlertLevel s = SolanaService.AlertLevel.CRITICAL ↔
      s < 40) := by
  unfold SolanaService.determineAlertLevel
  split_ifs with h1 h2 h3
  · refine ⟨⟨fun _ => h1, fun _ => rfl⟩, ⟨fun h => absurd h (by decide),
      fun h => absurd h1 (not_le.mpr h.2)⟩, ⟨fun h => absurd h (by decide),
      fun h => absurd h1 (not_le.mpr (by linarith [h.2]))⟩,
      ⟨fun h => absurd h (by decide),
        fun h => absurd h1 (not_le.mpr (by linarith))⟩⟩
  · push_neg at h1
    refine ⟨⟨fun h => absurd h (by decide), fun h => absurd h1 (not_lt.mpr h)⟩,
      ⟨fun _ => ⟨h2, h1⟩, fun _ => rfl⟩, ⟨fun h => absurd h (by decide),
        fun h => absurd h2 (not_le.mpr (by linarith [h.2]))⟩,
      ⟨fun h => absurd h (by decide),
        fun h => absurd h2 (not_le.mpr (by linarith))⟩⟩
  · push_neg at h1 h2
    refine ⟨⟨fun h => absurd h (by decide), fun h => absurd h1 (not_lt.mpr h)⟩,
      ⟨fun h => absurd h (by decide),
        fun h => absurd h2 (not_lt.mpr h.1)⟩,
      ⟨fun _ => ⟨h3, by linarith⟩, fun _ => rfl⟩,
      ⟨fun h => absurd h (by decide),
        fun h => absurd h3 (not_le.mpr (by linarith))⟩⟩
  · push_neg at h1 h2 h3
    refine ⟨⟨fun h => absurd h (by decide), fun h => absurd h1 (not_lt.mpr h)⟩,
      ⟨fun h => absurd h (by decide),
        fun h => absurd h2 (not_lt.mpr h.1)⟩,
      ⟨fun h => absurd h (by decide),
        fun h => absurd h3 (not_lt.mpr h.1)⟩,
      ⟨fun _ => by linarith, fun _ => rfl⟩⟩

/-! ### C5: block-processing circuit breaker -/

/-- C5 counterexample: starting from the fresh breaker state (counter 0,
breaker closed), a single `processBlock` error whose code is not BAD_DATA
leaves the error counter at 1 — refuting "errors outside the bad-data class
never increment the breaker's error counter" (the increment at
whale.service.ts line 704 is unconditional). -/
theorem circuit_breaker_nonbad_increment_cex :
    (WhaleServiceV2.processBlockWithCircuitBreaker ⟨0, false⟩
      (WhaleServiceV2.BlockOutcome.failure false)).1.errorCount = 1 := by
  decide

/-- C5 (amended): while the breaker is open, `processBlockWithCircuitBreaker`
skips the block entirely (state untouched, `processBlock` never invoked, so
no RPC); on success the error counter resets to 0; every failure — of any
error class — increments the counter, and the breaker opens exactly when
the failing error's code is BAD_DATA and the incremented counter has
reached `maxErrors` = 10; the 5-minute cooldown callback closes the breaker
with the counter reset to 0; ten consecutive BAD_DATA failures from the
fresh state open the breaker, nine do not. -/
theorem circuit_breaker_amended (st : WhaleServiceV2.BreakerState)
    (o : WhaleServiceV2.BlockOutcome) (b : Bool) :
    (st.circuitBreakerOpen = true →
      WhaleServiceV2.processBlockWithCircuitBreaker st o = (st, false)) ∧
    (st.circuitBreakerOpen = false →
      WhaleServiceV2.processBlockWithCircuitBreaker st
        WhaleServiceV2.BlockOutcome.success =
        (⟨0, false⟩, true)) ∧
    (st.circuitBreakerOpen = false →
      (WhaleServiceV2.processBlockWithCircuitBreaker st
        (WhaleServiceV2.BlockOutcome.failure b)).1.errorCount =
        st.errorCount + 1 ∧
      ((WhaleServiceV2.processBlockWithCircuitBreaker st
        (WhaleServiceV2.BlockOutcome.failure b)).1.circuitBreakerOpen = true ↔
        b = true ∧ st.errorCount + 1 ≥ WhaleServiceV2.maxErrors)) ∧
    WhaleServiceV2.circuitBreakerCooldownElapsed st = ⟨0, false⟩ ∧
    WhaleServiceV2.maxErrors = 10 ∧
    WhaleServiceV2.circuitBreakerCooldownMs = 5 * 60 * 1000 ∧
    ((fun s => (WhaleServiceV2.processBlockWithCircuitBreaker s
        (WhaleServiceV2.BlockOutcome.failure true)).1)^[10]
      ⟨0, false⟩).circuitBreakerOpen = true ∧
    ((fun s => (WhaleServiceV2.processBlockWithCircuitBreaker s
        (WhaleServiceV2.BlockOutcome.failure true)).1)^[9]
      ⟨0, false⟩).circuitBreakerOpen = false := by
  refine ⟨?_, ?_, ?_, rfl, rfl, rfl, by decide, by decide⟩
  · intro h
    simp [WhaleServiceV2.processBlockWithCircuitBreaker, h]
  · intro h
    obtain ⟨c, op⟩ := st
    simp_all [WhaleServiceV2.processBlockWithCircuitBreaker]
  · intro h
    obtain ⟨c, op⟩ := st
    subst h
    unfold WhaleServiceV2.processBlockWithCircuitBreaker
    simp only [Bool.false_eq_true, if_false]
    constructor
    · split_ifs <;> rfl
    · split_ifs with hc
      · simpa using hc
      · simp only [Bool.false_eq_true, false_iff]
        intro hcontra
        exact hc ⟨by simp [hcontra.1], hcontra.2⟩

/-- C5 witness: the amended circuit-breaker theorem applied at concrete
states: an open breaker skips a block unchanged; a closed breaker resets
its counter on success; a closed breaker at counter 9 opens on a tenth
consecutive error that is BAD_DATA. -/
theorem circuit_breaker_amended_witness :
    WhaleServiceV2.processBlockWithCircuitBreaker ⟨3, true⟩
      WhaleServiceV2.BlockOutcome.success = (⟨3, true⟩, false) ∧
    WhaleServiceV2.processBlockWithCircuitBreaker ⟨5, false⟩
      WhaleServiceV2.BlockOutcome.success = (⟨0, false⟩, true) ∧
    (WhaleServiceV2.processBlockWithCircuitBreaker ⟨9, false⟩
      (WhaleServiceV2.BlockOutcome.failure true)).1.circuitBreakerOpen =
      true :=
  ⟨(circuit_breaker_amended ⟨3, true⟩ WhaleServiceV2.BlockOutcome.success
      true).1 rfl,
    (circuit_breaker_amended ⟨5, false⟩ WhaleServiceV2.BlockOutcome.success
      true).2.1 rfl,
    ((circuit_breaker_amended ⟨9, false⟩ WhaleServiceV2.BlockOutcome.success
      true).2.2.1 rfl).2.mpr ⟨rfl, by decide⟩⟩

/-! ### C7: bounded transaction history -/

theorem addTransaction_take {α : Type} (maxTracked : ℕ) (s : List α)
    (tx : α) :
    WhaleServiceV2.addTransaction maxTracked (List.take maxTracked s) tx =
      List.take maxTracked (tx :: s) := by
  unfold WhaleServiceV2.addTransaction
  dsimp only
  cases maxTracked with
  | zero => simp
  | succ n =>
    split_ifs with hlen
    · simp only [List.take_succ_cons, List.cons.injEq, true_and]
      rw [List.take_take]
      congr 1
      omega
    · simp only [List.length_cons, List.length_take, gt_iff_lt, not_lt] at hlen
      have hs : s.length ≤ n := by omega
      rw [List.take_of_length_le (by omega), List.take_of_length_le (by
        simp only [List.length_cons]; omega)]

theorem foldl_addTransaction {α : Type} (maxTracked : ℕ) :
    ∀ (l : List α) (s : List α),
      List.foldl (WhaleServiceV2.addTransaction maxTracked)
          (List.take maxTracked s) l =
        List.take maxTracked (l.reverse ++ s)
  | [], s => by simp
  | x :: t, s => by
    rw [List.foldl_cons, addTransaction_take,
      foldl_addTransaction maxTracked t (x :: s)]
    simp

/-- C7: starting from the empty history, after inserting more than
`maxTrackedTransactions` transactions one at a time via `addTransaction`,
the recent-transactions list has length exactly the capacity and consists
of exactly the most recently inserted items in most-recent-first order
(the reversal of the insertion sequence, truncated at the capacity — so
the oldest items are evicted first). -/
theorem bounded_history {α : Type} (inserts : List α) (maxTracked : ℕ)
    (h : inserts.length > maxTracked) :
    (List.foldl (WhaleServiceV2.addTransaction maxTracked) []
      inserts).length = maxTracked ∧
    List.foldl (WhaleServiceV2.addTransaction maxTracked) [] inserts =
      List.take maxTracked inserts.reverse := by
  have key : List.foldl (WhaleServiceV2.addTransaction maxTracked) []
      inserts = List.take maxTracked inserts.reverse := by
    have h0 : (List.take maxTracked ([] : List α)) = ([] : List α) := by simp
    rw [← h0, foldl_addTransaction maxTracked inserts ([] : List α)]
    simp
  refine ⟨?_, key⟩
  rw [key, List.length_take, List.length_reverse]
  omega

/-- C7 witness: inserting 1, 2, 3 with capacity 2 leaves exactly the two
most recent items [3, 2]. -/
theorem bounded_history_witness :
    ([1, 2, 3] : List ℕ).length > 2 ∧
    (List.foldl (WhaleServiceV2.addTransaction 2) [] [1, 2, 3]).length = 2 ∧
    List.foldl (WhaleServiceV2.addTransaction 2) [] ([1, 2, 3] : List ℕ) =
      List.take 2 ([1, 2, 3] : List ℕ).reverse :=
  ⟨by decide, (bounded_history [1, 2, 3] 2 (by decide)).1,
    (bounded_history [1, 2, 3] 2 (by decide)).2⟩

/-! ### C2: at-most-one-active-monitor-per-address -/

/-- C2: calling `monitorWhaleAddress` for an address already present in the
monitor map is a no-op that leaves the whole state — including the existing
entry's baseline token set, metadata and start time — unchanged; and, for
an address not yet monitored, two sequential calls leave exactly one
monitor entry under that address, namely the one recorded by the first
call. -/
theorem monitorWhaleAddress_noop (st : SolanaService.MonitorState)
    (a : String) (amt : ℚ) (tx : String) (t : ℕ) (toks : List String)
    (h : (mapGet st.whaleMonitor a).isSome = true) :
    SolanaService.monitorWhaleAddress st a amt tx t toks = st := by
  unfold SolanaService.monitorWhaleAddress
  rw [if_pos h]

theorem monitor_exclusivity (st : SolanaService.MonitorState) (a : String)
    (amt1 amt2 : ℚ) (tx1 tx2 : String) (t1 t2 : ℕ)
    (toks1 toks2 : List String) :
    ((mapGet st.whaleMonitor a).isSome = true →
      SolanaService.monitorWhaleAddress st a amt1 tx1 t1 toks1 = st) ∧
    (mapGet st.whaleMonitor a = none →
      SolanaService.monitorWhaleAddress
          (SolanaService.monitorWhaleAddress st a amt1 tx1 t1 toks1) a amt2
          tx2 t2 toks2 =
        SolanaService.monitorWhaleAddress st a amt1 tx1 t1 toks1 ∧
      countKey (SolanaService.monitorWhaleAddress st a amt1 tx1 t1
        toks1).whaleMonitor a = 1 ∧
      mapGet (SolanaService.monitorWhaleAddress st a amt1 tx1 t1
        toks1).whaleMonitor a =
        some { initialTokens := toks1, amountSol := amt1,
               transactionHash := tx1, startTime := t1 }) := by
  constructor
  · intro h
    exact monitorWhaleAddress_noop st a amt1 tx1 t1 toks1 h
  · intro h
    have hset : mapSet st.whaleMonitor a
        (SolanaService.MonitorEntry.mk toks1 amt1 tx1 t1) =
        (a, SolanaService.MonitorEntry.mk toks1 amt1 tx1 t1) ::
          st.whaleMonitor :=
      mapSet_of_not_mem st.whaleMonitor a _ h
    have h1 : SolanaService.monitorWhaleAddress st a amt1 tx1 t1 toks1 =
        SolanaService.MonitorState.mk
          ((a, SolanaService.MonitorEntry.mk toks1 amt1 tx1 t1) ::
            st.whaleMonitor)
          (mapSet st.whaleAddresses a
            (SolanaService.WhaleAddrInfo.mk a amt1 t1 toks1.length
              (amt1 * 100))) := by
      unfold SolanaService.monitorWhaleAddress
      rw [if_neg (by simp [h]), hset]
    have hget : mapGet (SolanaService.monitorWhaleAddress st a amt1 tx1 t1
        toks1).whaleMonitor a =
        some { initialTokens := toks1, amountSol := amt1,
               transactionHash := tx1, startTime := t1 } := by
      rw [h1]
      simp [mapGet]
    refine ⟨?_, ?_, hget⟩
    · exact monitorWhaleAddress_noop _ a amt2 tx2 t2 toks2 (by rw [hget]; rfl)
    · rw [h1]
      have h0 : countKey st.whaleMonitor a = 0 := countKey_of_mapGet_none _ _ h
      unfold countKey at h0 ⊢
      simp [List.filter_cons, h0]

/-- C2 witness: the exclusivity theorem at concrete inputs: re-invoking the
monitor for an already-monitored address changes nothing, and two
sequential calls for a fresh address leave exactly one monitor entry,
holding the first call's record. -/
theorem monitor_exclusivity_witness :
    SolanaService.monitorWhaleAddress
        ⟨[("w1", ⟨["m0"], 60, "sigA", 5⟩)], []⟩ "w1" 75 "sigB" 9 ["m1"] =
      ⟨[("w1", ⟨["m0"], 60, "sigA", 5⟩)], []⟩ ∧
    (SolanaService.monitorWhaleAddress
        (SolanaService.monitorWhaleAddress ⟨[], []⟩ "w2" 60 "sigC" 0 [])
        "w2" 80 "sigD" 7 ["m2"] =
      SolanaService.monitorWhaleAddress ⟨[], []⟩ "w2" 60 "sigC" 0 [] ∧
    countKey (SolanaService.monitorWhaleAddress ⟨[], []⟩ "w2" 60 "sigC" 0
      []).whaleMonitor "w2" = 1 ∧
    mapGet (SolanaService.monitorWhaleAddress ⟨[], []⟩ "w2" 60 "sigC" 0
      []).whaleMonitor "w2" =
      some { initialTokens := [], amountSol := 60, transactionHash := "sigC",
             startTime := 0 }) :=
  ⟨(monitor_exclusivity ⟨[("w1", ⟨["m0"], 60, "sigA", 5⟩)], []⟩ "w1" 75 75
      "sigB" "sigB" 9 9 ["m1"] ["m1"]).1 rfl,
    (monitor_exclusivity ⟨[], []⟩ "w2" 60 80 "sigC" "sigD" 0 7 []
      ["m2"]).2 rfl⟩

/-! ### C3: per-tick new-token diff -/

/-- C3 counterexample: a monitor started with an empty baseline observes
holdings ["tokX"] on one poll tick — reporting tokX as newly acquired —
and on the next tick, with holdings unchanged, reports tokX again: the
diff at part_002 line 349 is taken against the never-updated original
baseline, so the same token is reported as newly acquired on two
consecutive ticks without any new acquisition. -/
theorem monitor_rereport_cex :
    (SolanaService.monitorPollTick [] ⟨[("w", ⟨[], 60, "sig", 0⟩)], []⟩ "w"
      ["tokX"] 8).2 = ["tokX"] ∧
    (SolanaService.monitorPollTick []
      (SolanaService.monitorPollTick [] ⟨[("w", ⟨[], 60, "sig", 0⟩)], []⟩ "w"
        ["tokX"] 8).1 "w" ["tokX"] 16).2 = ["tokX"] := by
  constructor <;> rfl

/-- C3 (amended): each poll tick reports exactly the tokens present in the
current holdings but absent from the once-captured initial baseline, and
never writes the baseline — consequently a token acquired after the
baseline snapshot is reported as newly acquired on every subsequent tick
while it is held, not just once; only the 10-minute analysis cache
suppresses duplicate whale alerts for it. -/
theorem monitor_diff_original_baseline (initialTokens : List String)
    (st : SolanaService.MonitorState) (a t : String)
    (current : List String) (now : ℕ) :
    ((SolanaService.monitorPollTick initialTokens st a current
        now).1.whaleMonitor = st.whaleMonitor) ∧
    (t ∈ (SolanaService.monitorPollTick initialTokens st a current now).2 ↔
      t ∈ current ∧ ¬ t ∈ initialTokens) := by
  constructor
  · cases h : mapGet st.whaleAddresses a <;>
      simp [SolanaService.monitorPollTick, h]
  · simp [SolanaService.monitorPollTick, List.mem_filter]

/-! ### C8: analyzed-set guard of the launch tracker -/

/-- A concrete discovered pair used to exercise the launch tracker: a
Solana pair quoted in USDC with zero recorded liquidity, which therefore
never qualifies for a new-launch alert. -/
def sampleUnqualifiedPair : WhaleMagnetService.DexPair :=
  { chainId := "solana"
    baseTokenAddress := "Mint1"
    baseTokenSymbol := "MINT"
    quoteTokenSymbol := "USDC"
    url := "https://dex.example/pair"
    priceUsd := 1
    liquidityUsd := some 0
    txnsH1Buys := some 0
    txnsH1Sells := some 0
    volumeH1 := none
    priceChangeM5 := none
    priceChangeH24 := none
    fdv := 0
    marketCap := 0
    pairCreatedAt := 0 }

/-- C8 counterexample: `analyzeNewLaunch` on a target-quote pair that fails
the alert qualification scores the token (returned flag `true`) but leaves
the analyzed-token set untouched — the key is only added inside the alert
branch (part_005 line 626) — so an immediately repeated call analyzes and
scores the very same (chain, token) key a second time, refuting
"analyzed at most once per process lifetime". -/
theorem analyzed_token_reanalysis_cex :
    WhaleMagnetService.analyzeNewLaunch ⟨[], []⟩ sampleUnqualifiedPair 0 =
      (⟨[], []⟩, true) ∧
    WhaleMagnetService.analyzeNewLaunch
      (WhaleMagnetService.analyzeNewLaunch ⟨[], []⟩ sampleUnqualifiedPair
        0).1 sampleUnqualifiedPair 0 = (⟨[], []⟩, true) := by
  have h1 : WhaleMagnetService.analyzeNewLaunch ⟨[], []⟩
      sampleUnqualifiedPair 0 = (⟨[], []⟩, true) := by
    norm_num [WhaleMagnetService.analyzeNewLaunch, sampleUnqualifiedPair,
      WhaleMagnetService.createWhaleMagnetEvent,
      WhaleMagnetService.shouldAlertNewLaunch,
      WhaleMagnetService.calculateRiskScore,
      WhaleMagnetService.TARGET_QUOTE_SYMBOLS,
      WhaleMagnetService.LIQUIDITY_THRESHOLD_USD,
      WhaleMagnetService.BUYS_THRESHOLD_H1,
      WhaleMagnetService.NEW_LAUNCH_THRESHOLD_MINUTES,
      WhaleMagnetService.honeypotRiskThreshold, jsRound, min_def, max_def]
  exact ⟨h1, by rw [h1]; exact h1⟩

/-- C8 (amended): once a (chain, token) key is in the analyzed-token set,
both `analyzeNewLaunch` and `analyzeToken` return immediately with the
state unchanged and no pair fetched or scored; the key enters the set only
when the token qualifies for an alert, so a token that never qualifies is
re-analyzed on subsequent sweeps until the manual cache-clear runs. -/
theorem analyzed_set_guard (st : WhaleMagnetService.TrackerState)
    (pair : WhaleMagnetService.DexPair) (chainId tokenAddress : String)
    (pairs : List WhaleMagnetService.DexPair) (now : ℚ) :
    (st.analyzedTokens.contains
        (pair.chainId ++ "-" ++ pair.baseTokenAddress) = true →
      WhaleMagnetService.analyzeNewLaunch st pair now = (st, false)) ∧
    (st.analyzedTokens.contains (chainId ++ "-" ++ tokenAddress) = true →
      WhaleMagnetService.analyzeToken st chainId tokenAddress pairs now =
        (st, false)) := by
  constructor
  · intro h
    unfold WhaleMagnetService.analyzeNewLaunch
    rw [if_pos h]
  · intro h
    unfold WhaleMagnetService.analyzeToken
    rw [if_pos h]

/-- C8 witness: the guard theorem applied with the key "solana-Mint1"
already in the analyzed set: both entry points return immediately with the
state unchanged. -/
theorem analyzed_set_guard_witness :
    WhaleMagnetService.analyzeNewLaunch ⟨["solana-Mint1"], []⟩
      sampleUnqualifiedPair 0 = (⟨["solana-Mint1"], []⟩, false) ∧
    WhaleMagnetService.analyzeToken ⟨["solana-Mint1"], []⟩ "solana" "Mint1"
      [sampleUnqualifiedPair] 0 = (⟨["solana-Mint1"], []⟩, false) :=
  ⟨(analyzed_set_guard ⟨["solana-Mint1"], []⟩ sampleUnqualifiedPair "solana"
      "Mint1" [sampleUnqualifiedPair] 0).1 rfl,
    (analyzed_set_guard ⟨["solana-Mint1"], []⟩ sampleUnqualifiedPair "solana"
      "Mint1" [sampleUnqualifiedPair] 0).2 rfl⟩

/-! ### C9: totality of the EthereumUtil helpers -/

/-- C9: every EthereumUtil helper is a total function of its string input:
when the wrapped ethers call throws (modelled by the oracle returning an
error), `formatEther`, `parseEther`, `formatUnits`, `parseUnits` and
`formatGwei` return "0"; `isValidAddress` returns false, as does
`isWhaleTransaction` when `parseFloat` yields NaN on malformed input; and
`checksumAddress` returns its input unchanged. -/
theorem ethereum_util_total_fallbacks
    (oFE : String → Except Unit String) (oPE : String → Except Unit ℤ)
    (oFU : String → ℕ → Except Unit String)
    (oPU : String → ℕ → Except Unit ℤ) (oFG : String → Except Unit String)
    (oIA : String → Except Unit Bool) (oCA : String → Except Unit String)
    (pf : String → Option ℚ) (w e u g a v : String) (d : ℕ) (t : ℚ) :
    (oFE w = Except.error () → EthereumUtil.formatEther oFE w = "0") ∧
    (oPE e = Except.error () → EthereumUtil.parseEther oPE e = "0") ∧
    (oFU u d = Except.error () → EthereumUtil.formatUnits oFU u d = "0") ∧
    (oPU u d = Except.error () → EthereumUtil.parseUnits oPU u d = "0") ∧
    (oFG g = Except.error () → EthereumUtil.formatGwei oFG g = "0") ∧
    (oIA a = Except.error () → EthereumUtil.isValidAddress oIA a = false) ∧
    (pf v = none → EthereumUtil.isWhaleTransaction pf v t = false) ∧
    (oCA a = Except.error () → EthereumUtil.checksumAddress oCA a = a) := by
  refine ⟨fun h => ?_, fun h => ?_, fun h => ?_, fun h => ?_, fun h => ?_,
    fun h => ?_, fun h => ?_, fun h => ?_⟩ <;>
    simp only [EthereumUtil.formatEther, EthereumUtil.parseEther,
      EthereumUtil.formatUnits, EthereumUtil.parseUnits,
      EthereumUtil.formatGwei, EthereumUtil.isValidAddress,
      EthereumUtil.isWhaleTransaction, EthereumUtil.checksumAddress, h]

/-- C9 witness: the totality theorem applied with always-throwing library
oracles and a NaN-producing `parseFloat` on malformed inputs. -/
theorem ethereum_util_total_fallbacks_witness :
    EthereumUtil.formatEther (fun _ => Except.error ()) "not-a-number" =
      "0" ∧
    EthereumUtil.parseEther (fun _ => Except.error ()) "xyz" = "0" ∧
    EthereumUtil.formatUnits (fun _ _ => Except.error ()) "xyz" 18 = "0" ∧
    EthereumUtil.parseUnits (fun _ _ => Except.error ()) "xyz" 18 = "0" ∧
    EthereumUtil.formatGwei (fun _ => Except.error ()) "xyz" = "0" ∧
    EthereumUtil.isValidAddress (fun _ => Except.error ()) "0xZZ" = false ∧
    EthereumUtil.isWhaleTransaction (fun _ => none) "abc" 100 = false ∧
    EthereumUtil.checksumAddress (fun _ => Except.error ()) "0xZZ" =
      "0xZZ" := by
  have H := ethereum_util_total_fallbacks (fun _ => Except.error ())
    (fun _ => Except.error ()) (fun _ _ => Except.error ())
    (fun _ _ => Except.error ()) (fun _ => Except.error ())
    (fun _ => Except.error ()) (fun _ => Except.error ()) (fun _ => none)
    "not-a-number" "xyz" "xyz" "xyz" "0xZZ" "abc" 18 100
  exact ⟨H.1 rfl, H.2.1 rfl, H.2.2.1 rfl, H.2.2.2.1 rfl, H.2.2.2.2.1 rfl,
    H.2.2.2.2.2.1 rfl, H.2.2.2.2.2.2.1 rfl, H.2.2.2.2.2.2.2 rfl⟩

/-! ### C10: public token-analysis query ignores the TTL -/

/-- C10: `getTokenAnalysis` returns whatever entry the cache holds for the
address — even one whose age has passed the 10-minute TTL that the
internal `analyzeToken` cache check enforces (on such a stale entry the
internal check falls through to a fresh fetch while the public query still
returns it) — and null when no entry is present; it is a pure lookup,
with no network fetch and no cache write. -/
theorem token_analysis_cache_query
    (cache : List (String × SolanaService.CachedAnalysis)) (addr : String)
    (now : ℕ) (entry : SolanaService.CachedAnalysis) :
    (mapGet cache addr = some entry →
      SolanaService.getTokenAnalysis cache addr = some entry) ∧
    (mapGet cache addr = none →
      SolanaService.getTokenAnalysis cache addr = none) ∧
    (mapGet cache addr = some entry →
      SolanaService.TOKEN_ANALYSIS_CACHE_DURATION ≤ now - entry.cachedAt →
      SolanaService.getTokenAnalysis cache addr = some entry ∧
      SolanaService.analyzeTokenCacheCheck cache addr now = none) := by
  refine ⟨fun h => ?_, fun h => ?_, fun h hstale => ⟨?_, ?_⟩⟩ <;>
    simp only [SolanaService.getTokenAnalysis,
      SolanaService.analyzeTokenCacheCheck, h]
  rw [if_neg (by omega)]

/-- C10 witness: with a cache entry recorded at time 0 queried at time
600000 (exactly the TTL), the public query still returns the entry while
the internal TTL check rejects it. -/
theorem token_analysis_cache_query_witness :
    SolanaService.getTokenAnalysis
      [("tok", ⟨50, SolanaService.RiskLevel.HIGH, 0⟩)] "tok" =
      some ⟨50, SolanaService.RiskLevel.HIGH, 0⟩ ∧
    SolanaService.getTokenAnalysis
      [("tok", ⟨50, SolanaService.RiskLevel.HIGH, 0⟩)] "other" = none ∧
    SolanaService.analyzeTokenCacheCheck
      [("tok", ⟨50, SolanaService.RiskLevel.HIGH, 0⟩)] "tok" 600000 =
      none :=
  ⟨(token_analysis_cache_query
      [("tok", ⟨50, SolanaService.RiskLevel.HIGH, 0⟩)] "tok" 600000
      ⟨50, SolanaService.RiskLevel.HIGH, 0⟩).1 rfl,
    (token_analysis_cache_query
      [("tok", ⟨50, SolanaService.RiskLevel.HIGH, 0⟩)] "other" 600000
      ⟨50, SolanaService.RiskLevel.HIGH, 0⟩).2.1 rfl,
    ((token_analysis_cache_query
      [("tok", ⟨50, SolanaService.RiskLevel.HIGH, 0⟩)] "tok" 600000
      ⟨50, SolanaService.RiskLevel.HIGH, 0⟩).2.2 rfl (by decide)).2⟩
